import Mathlib

/-!
# Verification of the MovieLens EDA script

A shallow embedding of `eda_movielens.py`, a single linear pandas/matplotlib
script that loads a ratings table and a movies table, prints summary
statistics, renders four chart files, and prints bias insights.

Conventions of the embedding:

* A dataframe is a `List` of row structures; a dataframe column is either a
  field of the row structure or a function of the row's group.
* `groupby` keys are the distinct key values sorted ascending (pandas sorts
  group keys by default); the group of a key is the sublist of rows carrying
  that key, in order.
* Stable sorts (pandas `nlargest` with `keep='first'`, Python's
  `sorted(..., reverse=True)` inside `Counter.most_common`) are modelled with
  `List.insertionSort`, which is stable; any stable sort of a total preorder
  produces the same list.
* Machine floats are modelled as exact rationals; the `std` aggregate, whose
  value is an (irrational) square root, is modelled in `ℝ`.
* Fallible operations (Python `ZeroDivisionError`, the `FileNotFoundError`
  handler) are modelled with `Option`.
* The observable behaviour of the script (console prints, `savefig` calls) is
  modelled as a list of `Event`s.
-/

namespace EDA

/-- A row of `ratings.csv`: `userId,movieId,rating,timestamp`.  The timestamp
column is loaded but never used.  Rating values are rationals: the pipeline
must not assume a particular rating scale. -/
structure Rating where
  userId : ℕ
  movieId : ℕ
  rating : ℚ
  timestamp : ℕ
deriving DecidableEq, Repr

/-- A row of `movies.csv`: `movieId,title,genres`, plus the derived
`genres_list` column that line 114 of the script
(`movies_df['genres_list'] = movies_df['genres'].str.split('|')`) adds in
place; the loader produces rows with `genresList = none`. -/
structure Movie where
  movieId : ℕ
  title : String
  genres : String
  genresList : Option (List String)
deriving DecidableEq, Repr

/-- `ratings_df['userId'].nunique()` (line 18). -/
def nUsers (ratings : List Rating) : ℕ :=
  ((ratings.map Rating.userId).dedup).length

/-- `ratings_df['movieId'].nunique()` (line 19). -/
def nMoviesRated (ratings : List Rating) : ℕ :=
  ((ratings.map Rating.movieId).dedup).length

/-- `len(ratings_df)` (line 20). -/
def nRatings (ratings : List Rating) : ℕ := ratings.length

/-- `movies_df['movieId'].nunique()` (line 21). -/
def nMoviesTotal (movies : List Movie) : ℕ :=
  ((movies.map Movie.movieId).dedup).length

/-- Python `/` on numbers: raises `ZeroDivisionError` on a zero denominator,
modelled as `none`. -/
def ratDiv? (a b : ℚ) : Option ℚ := if b = 0 then none else some (a / b)

/-- The sparsity expression `1 - n_ratings / (n_users * n_movies_rated)` of
line 27, fallible exactly where the Python expression is. -/
def sparsity? (ratings : List Rating) : Option ℚ :=
  (ratDiv? (nRatings ratings) ((nUsers ratings : ℚ) * (nMoviesRated ratings : ℚ))).map
    (fun q => 1 - q)

/-- Rounding to `d` decimal places, as the `:.4f` / `:.2f` / `:.1f` format
specifiers and pandas `.round(2)` do. -/
def roundTo (d : ℕ) (q : ℚ) : ℚ := (round (q * 10 ^ d) : ℤ) / 10 ^ d

/-- Rounding a real to `d` decimal places (for the `std` column, which lives
in `ℝ`). -/
noncomputable def roundToR (d : ℕ) (x : ℝ) : ℝ := (round (x * 10 ^ d) : ℤ) / 10 ^ d

/-- The `rating` column of the group `movieId = i` of
`ratings_df.groupby('movieId')`. -/
def movieRatings (ratings : List Rating) (i : ℕ) : List ℚ :=
  (ratings.filter (fun x => x.movieId == i)).map Rating.rating

/-- The `rating` column of the group `userId = u` of
`ratings_df.groupby('userId')`. -/
def userRatings (ratings : List Rating) (u : ℕ) : List ℚ :=
  (ratings.filter (fun x => x.userId == u)).map Rating.rating

/-- The key column of a pandas `groupby` result: distinct keys, sorted
ascending (`sort=True` is the pandas default). -/
def sortedKeys (l : List ℕ) : List ℕ :=
  l.dedup.insertionSort (fun a b => a ≤ b)

/-- The `mean` aggregate of a group. -/
def listMean (xs : List ℚ) : ℚ := xs.sum / xs.length

/-- The sample variance (`ddof = 1`, the pandas default for `std`, squared). -/
def sampleVar (xs : List ℚ) : ℚ :=
  ((xs.map (fun x => (x - listMean xs) ^ 2)).sum) / ((xs.length : ℚ) - 1)

/-- The pandas `std` aggregate of a group: `NaN` (here `none`) when the group
has at most one element, else the square root of the sample variance. -/
noncomputable def sampleStd? (xs : List ℚ) : Option ℝ :=
  if xs.length ≤ 1 then none else some (Real.sqrt (sampleVar xs))

/-- A `rating_std` column entry after `.round(2)` (which maps `NaN` to `NaN`). -/
noncomputable def ratingStdCol (xs : List ℚ) : Option ℝ :=
  (sampleStd? xs).map (roundToR 2)

/-- A row of a `groupby(key).agg({'rating': ['count', 'mean', 'std']}).round(2)`
aggregate: the `num_ratings` and `avg_rating` columns.  The `rating_std`
column of the row is `ratingStdCol` applied to the row's group (kept out of
the structure so that the aggregate stays computable). -/
structure AggRow where
  key : ℕ
  numRatings : ℕ
  avgRating : ℚ
deriving DecidableEq, Repr

/-- `ratings_df.groupby('movieId').agg({'rating': ['count', 'mean', 'std']})
.round(2)` with `reset_index()` (lines 53-57). -/
def movieAgg (ratings : List Rating) : List AggRow :=
  (sortedKeys (ratings.map Rating.movieId)).map (fun i =>
    { key := i
      numRatings := (movieRatings ratings i).length
      avgRating := roundTo 2 (listMean (movieRatings ratings i)) })

/-- A row of `movie_popularity` after the merge with titles (line 60). -/
structure PopRow where
  movieId : ℕ
  numRatings : ℕ
  avgRating : ℚ
  title : String
deriving DecidableEq, Repr

/-- `movie_popularity.merge(movies_df[['movieId', 'title']], on='movieId')`
(line 60): an inner join; pandas preserves the order of the left keys and
emits one row per matching right row. -/
def moviePopularity (ratings : List Rating) (movies : List Movie) : List PopRow :=
  (movieAgg ratings).flatMap (fun a =>
    (movies.filter (fun m => m.movieId == a.key)).map (fun m =>
      { movieId := a.key
        numRatings := a.numRatings
        avgRating := a.avgRating
        title := m.title }))

/-- `ratings_df.groupby('userId').agg({'rating': ['count', 'mean', 'std']})
.round(2)` (lines 84-87); the index is the userId. -/
def userStats (ratings : List Rating) : List AggRow :=
  (sortedKeys (ratings.map Rating.userId)).map (fun u =>
    { key := u
      numRatings := (userRatings ratings u).length
      avgRating := roundTo 2 (listMean (userRatings ratings u)) })

/-- Users whose row feeds the per-user mean-rating histogram, subplot (1,3,1)
(line 92, `plt.hist(user_stats['avg_rating'], ...)`): every row of
`user_stats`. -/
def meanPanelUsers (ratings : List Rating) : List ℕ :=
  (userStats ratings).map AggRow.key

/-- Users whose row feeds the activity-vs-rating scatter, subplot (1,3,3)
(line 104, `plt.scatter(user_stats['num_ratings'], user_stats['avg_rating'])`):
every row of `user_stats`. -/
def scatterPanelUsers (ratings : List Rating) : List ℕ :=
  (userStats ratings).map AggRow.key

/-- Users whose row feeds the per-user rating-std histogram, subplot (1,3,2)
(line 98, `plt.hist(user_stats['rating_std'].dropna(), ...)`): the rows whose
`rating_std` entry is not `NaN`. -/
noncomputable def stdPanelUsers (ratings : List Rating) : List ℕ :=
  ((userStats ratings).filter
    (fun s => (ratingStdCol (userRatings ratings s.key)).isSome)).map AggRow.key

/-- pandas `nlargest(n, column)` with the default `keep='first'`: a stable
sort descending by the column, then the first `n` rows. -/
def nlargest {α : Type} (col : α → ℕ) (n : ℕ) (rows : List α) : List α :=
  (rows.insertionSort (fun a b => col b ≤ col a)).take n

/-- `power_users = user_stats.nlargest(20, 'num_ratings').index.tolist()`
(line 137). -/
def powerUsers (ratings : List Rating) : List ℕ :=
  (nlargest AggRow.numRatings 20 (userStats ratings)).map AggRow.key

/-- `popular_movies_ids = movie_popularity.nlargest(50, 'num_ratings')
['movieId'].tolist()` (line 138). -/
def popularMovieIds (ratings : List Rating) (movies : List Movie) : List ℕ :=
  (nlargest PopRow.numRatings 50 (moviePopularity ratings movies)).map PopRow.movieId

/-- `ratings_df[ratings_df['userId'].isin(power_users)].shape[0] / n_ratings
* 100` (line 141): the percentage of rating rows whose user is a power user. -/
def powerUserShare (ratings : List Rating) : ℚ :=
  ((ratings.filter (fun x => (powerUsers ratings).contains x.userId)).length : ℚ)
    / (nRatings ratings) * 100

/-- `ratings_df[ratings_df['movieId'].isin(popular_movies_ids)].shape[0] /
n_ratings * 100` (line 144): the percentage of rating rows whose movie is a
popular movie. -/
def popularMovieShare (ratings : List Rating) (movies : List Movie) : ℚ :=
  ((ratings.filter
      (fun x => (popularMovieIds ratings movies).contains x.movieId)).length : ℚ)
    / (nRatings ratings) * 100

/-- `ratings_df['rating'].value_counts().sort_index()` (line 34): each
distinct rating value present, ascending, with the number of rows carrying
it. -/
def ratingCounts (ratings : List Rating) : List (ℚ × ℕ) :=
  (((ratings.map Rating.rating).dedup).insertionSort (fun a b => a ≤ b)).map
    (fun v => (v, (ratings.map Rating.rating).count v))

/-- `movies_df['genres'].str.split('|')` for one row: Python `str.split` on a
one-character separator, keeping empty pieces (modelled on the character
list of the string). -/
def splitGenres (m : Movie) : List String :=
  (m.genres.toList.splitOn '|').map (fun cs => String.mk cs)

/-- Line 114, `movies_df['genres_list'] = movies_df['genres'].str.split('|')`:
the single in-place update of a source table after loading. -/
def addGenresList (movies : List Movie) : List Movie :=
  movies.map (fun m => { m with genresList := some (splitGenres m) })

/-- `all_genres` (lines 115-117): every split label of every movie row, in row
order, with multiplicity. -/
def allGenres (movies : List Movie) : List String :=
  movies.flatMap splitGenres

/-- `Counter(all_genres)[g]` (line 119): the tally of one label. -/
def genreTally (movies : List Movie) (g : String) : ℕ :=
  (allGenres movies).count g

/-- The keys of `Counter(all_genres)`: a Python dict holds its keys in
insertion order, i.e. in first-occurrence order of `all_genres`. -/
def distinctGenres (movies : List Movie) : List String :=
  (allGenres movies).foldl (fun acc g => if g ∈ acc then acc else acc ++ [g]) []

/-- The stable descending sort by count of the `Counter` items that underlies
`most_common` (`heapq.nlargest(n, items, key=count)` is documented as
`sorted(items, key=count, reverse=True)[:n]`, and `sorted` is stable). -/
def sortedGenres (movies : List Movie) : List String :=
  (distinctGenres movies).insertionSort
    (fun a b => genreTally movies b ≤ genreTally movies a)

/-- `genre_counts.most_common(10)` keys (line 120): the first 10 labels of
the stable descending sort by count. -/
def topGenres (movies : List Movie) : List String :=
  (sortedGenres movies).take 10

/-- An observable effect of the script: a console print or a `savefig`. -/
inductive Event where
  | msg (s : String)
  | printNum (label : String) (value : ℚ)
  | savefig (file : String)
deriving DecidableEq, Repr

/-- The events of the script after a successful load (lines 17-152).  The
computed numbers are attached to their print labels.  When the sparsity
expression of line 27 divides by zero, the script dies there with an
unhandled `ZeroDivisionError`: nothing after that print is produced. -/
def postLoadEvents (ratings : List Rating) (movies : List Movie) : List Event :=
  [Event.msg "=== DATASET OVERVIEW ===",
   Event.printNum "Users" (nUsers ratings),
   Event.printNum "Movies (total)" (nMoviesTotal movies),
   Event.printNum "Movies (rated)" (nMoviesRated ratings),
   Event.printNum "Total ratings" (nRatings ratings)] ++
  (match sparsity? ratings with
   | none => []
   | some s =>
     [Event.printNum "Sparsity" (roundTo 4 s),
      Event.printNum "Avg ratings per user"
        (roundTo 1 ((nRatings ratings : ℚ) / (nUsers ratings))),
      Event.printNum "Avg ratings per movie"
        (roundTo 1 ((nRatings ratings : ℚ) / (nMoviesRated ratings))),
      Event.savefig "basic_distributions.png",
      Event.savefig "popularity_vs_rating.png",
      Event.savefig "user_behavior_analysis.png",
      Event.savefig "genre_distribution.png",
      Event.msg "=== FILTERING INSIGHTS ===",
      Event.printNum "Matrix sparsity percent" (roundTo 2 (s * 100)),
      Event.printNum "Power users share" (roundTo 1 (powerUserShare ratings)),
      Event.printNum "Popular movies share"
        (roundTo 1 (popularMovieShare ratings movies)),
      Event.msg "=== SUMMARY ==="])

/-- The whole script (lines 8-152).  `none` marks an input file that is
absent: the `except FileNotFoundError` handler (lines 12-14) prints a fixed
message and calls `exit()` before anything else happens. -/
def runPipeline (ratingsFile : Option (List Rating))
    (moviesFile : Option (List Movie)) : List Event :=
  match ratingsFile, moviesFile with
  | some ratings, some movies =>
      Event.msg "Successfully loaded MovieLens dataset" :: postLoadEvents ratings movies
  | _, _ => [Event.msg "ERROR: Dataset files not found."]

/-- The two source tables, shared by every stage after loading. -/
structure Tables where
  ratings : List Rating
  movies : List Movie
deriving DecidableEq, Repr

/-- The net effect of the whole run on the two source tables: the only
assignment to either table after loading is line 114
(`movies_df['genres_list'] = ...`); `ratings_df` is never assigned. -/
def finalTables (t : Tables) : Tables :=
  { ratings := t.ratings, movies := addGenresList t.movies }

/-- A movie row with the derived `genres_list` column removed (the shape the
loader produced). -/
def stripGenresList (m : Movie) : Movie :=
  { m with genresList := none }

/-- The spec's worked scenario:
`ratings = [(u1,i1,5),(u1,i2,3),(u2,i1,4)]`. -/
def exRatings : List Rating :=
  [⟨1, 1, 5, 0⟩, ⟨1, 2, 3, 0⟩, ⟨2, 1, 4, 0⟩]

/-- The spec's worked scenario:
`items = [(i1,"T1","Action"),(i2,"T2","Action|Comedy")]`. -/
def exMovies : List Movie :=
  [⟨1, "T1", "Action", none⟩, ⟨2, "T2", "Action|Comedy", none⟩]

/-! Section: Helper lemmas -/

theorem mem_sortedKeys {l : List ℕ} {i : ℕ} : i ∈ sortedKeys l ↔ i ∈ l := by
  simp [sortedKeys, List.mem_insertionSort, List.mem_dedup]

theorem length_movieRatings_pos {ratings : List Rating} {i : ℕ}
    (h : i ∈ ratings.map Rating.movieId) : 0 < (movieRatings ratings i).length := by
  simp only [List.mem_map] at h
  obtain ⟨x, hx, hxi⟩ := h
  have hxf : x ∈ ratings.filter (fun x => x.movieId == i) :=
    List.mem_filter.mpr ⟨hx, by simp [hxi]⟩
  simpa [movieRatings] using List.length_pos.mpr (List.ne_nil_of_mem (List.mem_map_of_mem Rating.rating hxf))

theorem length_userRatings_pos {ratings : List Rating} {u : ℕ}
    (h : u ∈ ratings.map Rating.userId) : 0 < (userRatings ratings u).length := by
  simp only [List.mem_map] at h
  obtain ⟨x, hx, hxu⟩ := h
  have hxf : x ∈ ratings.filter (fun x => x.userId == u) :=
    List.mem_filter.mpr ⟨hx, by simp [hxu]⟩
  simpa [userRatings] using List.length_pos.mpr (List.ne_nil_of_mem (List.mem_map_of_mem Rating.rating hxf))

theorem ratingStdCol_of_length_le_one {xs : List ℚ} (h : xs.length ≤ 1) :
    ratingStdCol xs = none := by
  simp [ratingStdCol, sampleStd?, h]

theorem ratingStdCol_of_two_le {xs : List ℚ} (h : 2 ≤ xs.length) :
    ratingStdCol xs = some (roundToR 2 (Real.sqrt (sampleVar xs))) := by
  have : ¬ xs.length ≤ 1 := by omega
  simp [ratingStdCol, sampleStd?, this]

/-! Section: C1: sparsity print -/

/-- C1. For every loaded dataset, the sparsity computed (and printed with
4-decimal precision) is `1 - N / (U * M_rated)`; when `U * M_rated = 0` the
expression is fatal (`ZeroDivisionError`, modelled by `sparsity? = none`): no
sparsity value is printed and no chart is saved. -/
theorem sparsity_print_spec (ratings : List Rating) (movies : List Movie) :
    (nUsers ratings * nMoviesRated ratings ≠ 0 →
      sparsity? ratings =
        some (1 - (nRatings ratings : ℚ) /
          ((nUsers ratings : ℚ) * (nMoviesRated ratings : ℚ))) ∧
      Event.printNum "Sparsity"
          (roundTo 4 (1 - (nRatings ratings : ℚ) /
            ((nUsers ratings : ℚ) * (nMoviesRated ratings : ℚ))))
        ∈ runPipeline (some ratings) (some movies)) ∧
    (nUsers ratings * nMoviesRated ratings = 0 →
      sparsity? ratings = none ∧
      (∀ v : ℚ, Event.printNum "Sparsity" v ∉ runPipeline (some ratings) (some movies)) ∧
      (∀ f : String, Event.savefig f ∉ runPipeline (some ratings) (some movies))) := by
  constructor
  · intro h
    have hb : ((nUsers ratings : ℚ) * (nMoviesRated ratings : ℚ)) ≠ 0 := by
      have : ((nUsers ratings * nMoviesRated ratings : ℕ) : ℚ) ≠ 0 :=
        Nat.cast_ne_zero.mpr h
      push_cast at this
      exact this
    have hs : sparsity? ratings =
        some (1 - (nRatings ratings : ℚ) /
          ((nUsers ratings : ℚ) * (nMoviesRated ratings : ℚ))) := by
      simp [sparsity?, ratDiv?, hb]
    refine ⟨hs, ?_⟩
    simp only [runPipeline, postLoadEvents, hs, List.mem_cons, List.mem_append]
    tauto
  · intro h
    have hb : ((nUsers ratings : ℚ) * (nMoviesRated ratings : ℚ)) = 0 := by
      have : ((nUsers ratings * nMoviesRated ratings : ℕ) : ℚ) = 0 := by
        exact_mod_cast congrArg (Nat.cast : ℕ → ℚ) h
      push_cast at this
      exact this
    have hs : sparsity? ratings = none := by
      simp [sparsity?, ratDiv?, hb]
    refine ⟨hs, ?_, ?_⟩ <;> intro v <;>
      simp [runPipeline, postLoadEvents, hs]

/-- Witness for `sparsity_print_spec` at the spec's scenario (nonzero case)
and at the empty ratings table (zero case). -/
theorem sparsity_print_spec_witness :
    (sparsity? exRatings =
      some (1 - (nRatings exRatings : ℚ) /
        ((nUsers exRatings : ℚ) * (nMoviesRated exRatings : ℚ))) ∧
     Event.printNum "Sparsity"
        (roundTo 4 (1 - (nRatings exRatings : ℚ) /
          ((nUsers exRatings : ℚ) * (nMoviesRated exRatings : ℚ))))
       ∈ runPipeline (some exRatings) (some exMovies)) ∧
    sparsity? [] = none ∧
    Event.printNum "Sparsity" 0 ∉ runPipeline (some []) (some exMovies) ∧
    Event.savefig "basic_distributions.png" ∉ runPipeline (some []) (some exMovies) :=
  ⟨sparsity_print_spec exRatings exMovies |>.1 (by decide),
   (sparsity_print_spec [] exMovies |>.2 (by decide)).1,
   (sparsity_print_spec [] exMovies |>.2 (by decide)).2.1 0,
   (sparsity_print_spec [] exMovies |>.2 (by decide)).2.2 "basic_distributions.png"⟩

/-! Section: C2: missing input file -/

/-- C2. If either input file is absent, the run prints the fixed
dataset-not-found message and terminates: no chart file is saved, the dataset
overview is never printed, and no further processing occurs. -/
theorem missing_file_aborts (ratingsFile : Option (List Rating))
    (moviesFile : Option (List Movie))
    (h : ratingsFile = none ∨ moviesFile = none) :
    runPipeline ratingsFile moviesFile = [Event.msg "ERROR: Dataset files not found."] ∧
    (∀ f : String, Event.savefig f ∉ runPipeline ratingsFile moviesFile) ∧
    Event.msg "=== DATASET OVERVIEW ===" ∉ runPipeline ratingsFile moviesFile := by
  have he : runPipeline ratingsFile moviesFile =
      [Event.msg "ERROR: Dataset files not found."] := by
    rcases h with h | h <;> subst h
    · cases moviesFile <;> rfl
    · cases ratingsFile <;> rfl
  refine ⟨he, fun f => ?_, ?_⟩ <;> simp [he]

/-- Witness for `missing_file_aborts`: a run with the ratings file missing. -/
theorem missing_file_aborts_witness :
    runPipeline none (some exMovies) = [Event.msg "ERROR: Dataset files not found."] ∧
    Event.savefig "basic_distributions.png" ∉ runPipeline none (some exMovies) ∧
    Event.msg "=== DATASET OVERVIEW ===" ∉ runPipeline none (some exMovies) :=
  ⟨(missing_file_aborts none (some exMovies) (Or.inl rfl)).1,
   (missing_file_aborts none (some exMovies) (Or.inl rfl)).2.1 "basic_distributions.png",
   (missing_file_aborts none (some exMovies) (Or.inl rfl)).2.2⟩

/-! Section: C3: read-only source tables (corrected: line 114 mutates `movies_df`) -/

/-- Counterexample to C3 as stated: the run does mutate a source table after
loading — the genre analyzer (line 114) adds the `genres_list` column to the
items table in place, so the items table is not identical before and after
that stage. -/
theorem genre_stage_mutates_movies_table :
    finalTables { ratings := [], movies := [⟨1, "T1", "Action", none⟩] } ≠
      { ratings := [], movies := [⟨1, "T1", "Action", none⟩] } := by
  decide

/-- C3 amended: after loading, the ratings table is never mutated, and the
only mutation of the items table is the genre analyzer adding the derived
`genres_list` column (line 114); every original column of every items row,
and the row count and order, are unchanged. -/
theorem tables_readonly_except_genres_list (t : Tables) :
    (finalTables t).ratings = t.ratings ∧
    ((finalTables t).movies).map stripGenresList = t.movies.map stripGenresList ∧
    ((finalTables t).movies).map Movie.movieId = t.movies.map Movie.movieId ∧
    ((finalTables t).movies).map Movie.title = t.movies.map Movie.title ∧
    ((finalTables t).movies).map Movie.genres = t.movies.map Movie.genres ∧
    (finalTables t).movies.length = t.movies.length := by
  refine ⟨rfl, ?_, ?_, ?_, ?_, ?_⟩ <;>
    simp [finalTables, addGenresList, stripGenresList, List.map_map, Function.comp]

/-! Section: C5: single-rating item mean (corrected: the mean is rounded) -/

/-- Counterexample to C5 as stated: for an item whose single rating is `1/3`
(a legal value on some numeric scale, though not on the 0.5-step domain
scale), the aggregate's mean is the rounded `33/100`, not the rating itself. -/
theorem single_rating_mean_not_exact :
    movieRatings [⟨1, 1, 1/3, 0⟩] 1 = [1/3] ∧
    movieAgg [⟨1, 1, 1/3, 0⟩] =
      [{ key := 1, numRatings := 1, avgRating := 33/100 }] ∧
    (33/100 : ℚ) ≠ 1/3 := by
  refine ⟨by norm_num [movieRatings], ?_, by norm_num⟩
  simp only [movieAgg, sortedKeys, movieRatings, listMean, roundTo]
  norm_num [List.dedup, List.insertionSort, round_eq]

/-- C5 amended: for an item with exactly one rating `r`, the per-item
aggregate row has count 1 and mean `r` rounded to 2 decimal places — which
equals `r` itself exactly when `r` is an integer multiple of 1/100 (as every
value of the 0.5-step domain scale is) — and its standard deviation is
absent. -/
theorem single_rating_mean_spec (ratings : List Rating) (i : ℕ) (r : ℚ)
    (h : movieRatings ratings i = [r]) :
    ({ key := i, numRatings := 1, avgRating := roundTo 2 r } : AggRow) ∈ movieAgg ratings ∧
    ratingStdCol (movieRatings ratings i) = none ∧
    (∀ k : ℤ, r = (k : ℚ) / 100 → roundTo 2 r = r) := by
  have hne : movieRatings ratings i ≠ [] := by simp [h]
  have hi : i ∈ ratings.map Rating.movieId := by
    obtain ⟨q, hq⟩ := List.exists_mem_of_ne_nil _ hne
    simp only [movieRatings, List.mem_map, List.mem_filter] at hq
    obtain ⟨x, ⟨hx, hxi⟩, -⟩ := hq
    exact List.mem_map.mpr ⟨x, hx, by simpa using hxi⟩
  refine ⟨?_, ?_, ?_⟩
  · refine List.mem_map.mpr ⟨i, mem_sortedKeys.mpr hi, ?_⟩
    simp [h, listMean]
  · exact ratingStdCol_of_length_le_one (by simp [h])
  · rintro k rfl
    have h100 : ((k : ℚ) / 100) * 10 ^ 2 = (k : ℚ) := by
      rw [show ((10 : ℚ) ^ 2) = 100 by norm_num,
        div_mul_cancel₀ _ (by norm_num : (100 : ℚ) ≠ 0)]
    simp only [roundTo, h100, round_intCast]
    norm_num

/-- Witness for `single_rating_mean_spec`: in the spec scenario, item 2 has
the single rating 3. -/
theorem single_rating_mean_spec_witness :
    ({ key := 2, numRatings := 1, avgRating := roundTo 2 3 } : AggRow) ∈ movieAgg exRatings ∧
    ratingStdCol (movieRatings exRatings 2) = none ∧
    roundTo 2 (3 : ℚ) = 3 := by
  have h := single_rating_mean_spec exRatings 2 3 (by decide)
  exact ⟨h.1, h.2.1, h.2.2 300 (by norm_num)⟩

/-! Section: C9: single-rating users in the user-behavior panels -/

/-- C9. A user with exactly one rating is excluded from the rating-std
histogram panel (its `rating_std` is `NaN` and is dropped by `dropna()`), but
included in the mean-rating histogram panel and in the activity-vs-rating
scatter panel (both draw every row of `user_stats`). -/
theorem single_rating_user_panels (ratings : List Rating) (u : ℕ)
    (h : (userRatings ratings u).length = 1) :
    u ∉ stdPanelUsers ratings ∧
    u ∈ meanPanelUsers ratings ∧
    u ∈ scatterPanelUsers ratings := by
  have hne : userRatings ratings u ≠ [] := by
    intro hx
    rw [hx] at h
    simp at h
  have hu : u ∈ ratings.map Rating.userId := by
    obtain ⟨q, hq⟩ := List.exists_mem_of_ne_nil _ hne
    simp only [userRatings, List.mem_map, List.mem_filter] at hq
    obtain ⟨x, ⟨hx, hxu⟩, -⟩ := hq
    exact List.mem_map.mpr ⟨x, hx, by simpa using hxu⟩
  refine ⟨?_, ?_, ?_⟩
  · intro hmem
    simp only [stdPanelUsers, List.mem_map, List.mem_filter, userStats] at hmem
    obtain ⟨s, ⟨hs, hstd⟩, hkey⟩ := hmem
    obtain ⟨u', -, rfl⟩ := hs
    replace hkey : u' = u := hkey
    subst hkey
    rw [ratingStdCol_of_length_le_one (by rw [h])] at hstd
    simp at hstd
  · simp only [meanPanelUsers, userStats, List.map_map, List.mem_map, Function.comp]
    exact ⟨u, mem_sortedKeys.mpr hu, rfl⟩
  · simp only [scatterPanelUsers, userStats, List.map_map, List.mem_map, Function.comp]
    exact ⟨u, mem_sortedKeys.mpr hu, rfl⟩

/-- Witness for `single_rating_user_panels`: in the spec scenario extended by
one extra row, user 2 has exactly one rating. -/
theorem single_rating_user_panels_witness :
    2 ∉ stdPanelUsers exRatings ∧
    2 ∈ meanPanelUsers exRatings ∧
    2 ∈ scatterPanelUsers exRatings :=
  single_rating_user_panels exRatings 2 (by decide)

/-! Section: The popularity aggregate: shared characterization lemmas -/

theorem mem_moviePopularity_elim {ratings : List Rating} {movies : List Movie}
    {r : PopRow} (hr : r ∈ moviePopularity ratings movies) :
    r.movieId ∈ ratings.map Rating.movieId ∧
    (∃ m ∈ movies, m.movieId = r.movieId ∧ m.title = r.title) ∧
    r.numRatings = (movieRatings ratings r.movieId).length ∧
    r.avgRating = roundTo 2 (listMean (movieRatings ratings r.movieId)) := by
  simp only [moviePopularity, List.mem_flatMap, List.mem_map, List.mem_filter,
    movieAgg] at hr
  obtain ⟨a, ⟨i, hi, rfl⟩, m, ⟨hm, hmi⟩, rfl⟩ := hr
  have hmi' : m.movieId = i := by simpa using hmi
  exact ⟨mem_sortedKeys.mp hi, ⟨m, hm, hmi', rfl⟩, rfl, rfl⟩

theorem mem_moviePopularity_intro {ratings : List Rating} {movies : List Movie}
    {i : ℕ} {m : Movie} (hi : i ∈ ratings.map Rating.movieId)
    (hm : m ∈ movies) (hmi : m.movieId = i) :
    ({ movieId := i
       numRatings := (movieRatings ratings i).length
       avgRating := roundTo 2 (listMean (movieRatings ratings i))
       title := m.title } : PopRow) ∈ moviePopularity ratings movies := by
  simp only [moviePopularity, List.mem_flatMap, List.mem_map, List.mem_filter,
    movieAgg]
  exact ⟨_, ⟨i, mem_sortedKeys.mpr hi, rfl⟩, m, ⟨hm, by simp [hmi]⟩, rfl⟩

/-! Section: C4: the per-item popularity aggregate -/

/-- C4. Every row of `movie_popularity` is an item appearing in the ratings
table (items never rated do not appear), inner-joined with a title of that
item from the items table, carrying the group's rating count, its mean
rounded to 2 decimals, and — as the `rating_std` column — its standard
deviation rounded to 2 decimals, absent exactly when the count is 1;
conversely every rated item present in the items table yields a row. -/
theorem movie_popularity_spec (ratings : List Rating) (movies : List Movie) :
    (∀ r ∈ moviePopularity ratings movies,
       r.movieId ∈ ratings.map Rating.movieId ∧
       1 ≤ r.numRatings ∧
       (∃ m ∈ movies, m.movieId = r.movieId ∧ m.title = r.title) ∧
       r.numRatings = (movieRatings ratings r.movieId).length ∧
       r.avgRating = roundTo 2 (listMean (movieRatings ratings r.movieId)) ∧
       (r.numRatings = 1 → ratingStdCol (movieRatings ratings r.movieId) = none) ∧
       (2 ≤ r.numRatings →
         ratingStdCol (movieRatings ratings r.movieId) =
           some (roundToR 2 (Real.sqrt (sampleVar (movieRatings ratings r.movieId)))))) ∧
    (∀ i : ℕ, i ∈ ratings.map Rating.movieId → (∃ m ∈ movies, m.movieId = i) →
       ∃ r ∈ moviePopularity ratings movies, r.movieId = i) := by
  constructor
  · intro r hr
    obtain ⟨h1, h2, h3, h4⟩ := mem_moviePopularity_elim hr
    refine ⟨h1, ?_, h2, h3, h4, ?_, ?_⟩
    · rw [h3]
      exact length_movieRatings_pos h1
    · intro hc
      exact ratingStdCol_of_length_le_one (by rw [← h3, hc])
    · intro hc
      exact ratingStdCol_of_two_le (by rw [← h3]; exact hc)
  · rintro i hi ⟨m, hm, hmi⟩
    exact ⟨_, mem_moviePopularity_intro hi hm hmi, rfl⟩

/-- Witness for `movie_popularity_spec` at the spec's worked scenario: item 1
(rated twice, titled "T1") yields a row with the stated count property. -/
theorem movie_popularity_spec_witness :
    ∃ r ∈ moviePopularity exRatings exMovies,
      r.movieId = 1 ∧ 1 ≤ r.numRatings ∧
      r.numRatings = (movieRatings exRatings 1).length := by
  obtain ⟨r, hr, hri⟩ :=
    (movie_popularity_spec exRatings exMovies).2 1 (by decide)
      ⟨⟨1, "T1", "Action", none⟩, by decide, rfl⟩
  have h := (movie_popularity_spec exRatings exMovies).1 r hr
  exact ⟨r, hr, hri, h.2.1, by rw [h.2.2.2.1, hri]⟩

/-! Section: C10: rated items absent from the items table -/

/-- C10. An item identifier present in the ratings table but absent from the
items table is dropped by the inner join: it appears in no row of
`movie_popularity`, is never one of the top-50 popular items, and its rating
rows contribute nothing to the popular-item share's numerator. -/
theorem unmatched_movie_dropped (ratings : List Rating) (movies : List Movie)
    (i : ℕ) (_hi : i ∈ ratings.map Rating.movieId)
    (hm : ∀ m ∈ movies, m.movieId ≠ i) :
    i ∉ (moviePopularity ratings movies).map PopRow.movieId ∧
    i ∉ popularMovieIds ratings movies ∧
    ratings.filter (fun x => (popularMovieIds ratings movies).contains x.movieId) =
      (ratings.filter (fun x => x.movieId ≠ i)).filter
        (fun x => (popularMovieIds ratings movies).contains x.movieId) := by
  have hnot : ∀ r ∈ moviePopularity ratings movies, r.movieId ≠ i := by
    intro r hr hri
    obtain ⟨-, ⟨m, hmm, hmi, -⟩, -, -⟩ := mem_moviePopularity_elim hr
    exact hm m hmm (hri ▸ hmi)
  have h1 : i ∉ (moviePopularity ratings movies).map PopRow.movieId := by
    intro hmem
    obtain ⟨r, hr, hri⟩ := List.mem_map.mp hmem
    exact hnot r hr hri
  have h2 : i ∉ popularMovieIds ratings movies := by
    intro hmem
    simp only [popularMovieIds, nlargest, List.mem_map] at hmem
    obtain ⟨r, hr, hri⟩ := hmem
    exact hnot r ((List.mem_insertionSort _).mp (List.mem_of_mem_take hr)) hri
  refine ⟨h1, h2, ?_⟩
  rw [List.filter_filter]
  refine (List.filter_congr ?_).symm
  intro x hx
  by_cases hxi : x.movieId = i
  · simp [hxi, h2]
  · simp [hxi]

/-- Witness for `unmatched_movie_dropped`: item 99 is rated but missing from
the items table. -/
theorem unmatched_movie_dropped_witness :
    (99 : ℕ) ∉ (moviePopularity [⟨1, 1, 5, 0⟩, ⟨1, 99, 3, 0⟩] exMovies).map PopRow.movieId ∧
    (99 : ℕ) ∉ popularMovieIds [⟨1, 1, 5, 0⟩, ⟨1, 99, 3, 0⟩] exMovies :=
  ⟨(unmatched_movie_dropped [⟨1, 1, 5, 0⟩, ⟨1, 99, 3, 0⟩] exMovies 99 (by decide)
      (by decide)).1,
   (unmatched_movie_dropped [⟨1, 1, 5, 0⟩, ⟨1, 99, 3, 0⟩] exMovies 99 (by decide)
      (by decide)).2.1⟩

/-! Section: C6: the rating-value histogram -/

/-- C6. `rating_counts` maps each distinct rating value present in the
ratings table to the count of rows carrying it, in strictly ascending order
of rating value, and the counts sum to the number of rating rows. -/
theorem rating_counts_spec (ratings : List Rating) :
    ((ratingCounts ratings).map Prod.fst).Sorted (· < ·) ∧
    (∀ v : ℚ, ∀ c : ℕ, ((v, c) ∈ ratingCounts ratings ↔
      v ∈ ratings.map Rating.rating ∧ c = (ratings.map Rating.rating).count v)) ∧
    ((ratingCounts ratings).map Prod.snd).sum = nRatings ratings := by
  refine ⟨?_, ?_, ?_⟩
  · have hmap : (ratingCounts ratings).map Prod.fst =
        ((ratings.map Rating.rating).dedup).insertionSort (fun a b => a ≤ b) := by
      simp [ratingCounts, List.map_map, Function.comp_def]
    rw [hmap]
    have hsorted : (((ratings.map Rating.rating).dedup).insertionSort
        (fun a b => a ≤ b)).Sorted (· ≤ ·) :=
      List.sorted_insertionSort _ _
    have hnodup : (((ratings.map Rating.rating).dedup).insertionSort
        (fun a b => a ≤ b)).Nodup :=
      (List.perm_insertionSort _ _).nodup_iff.mpr (List.nodup_dedup _)
    exact hsorted.lt_of_le hnodup
  · intro v c
    simp only [ratingCounts, List.mem_map, List.mem_insertionSort, List.mem_dedup,
      Prod.mk.injEq]
    constructor
    · rintro ⟨v', hv', rfl, rfl⟩
      exact ⟨hv', rfl⟩
    · rintro ⟨hv, rfl⟩
      exact ⟨v, hv, rfl, rfl⟩
  · have hperm : ((ratingCounts ratings).map Prod.snd).Perm
        (((ratings.map Rating.rating).dedup).map
          (fun v => (ratings.map Rating.rating).count v)) := by
      simp only [ratingCounts, List.map_map, Function.comp]
      exact (List.perm_insertionSort _ _).map _
    rw [hperm.sum_eq, List.sum_map_count_dedup_eq_length, List.length_map]
    rfl

/-- Witness for `rating_counts_spec`: in the spec scenario, value 5 occurs
once and the histogram counts sum to 3. -/
theorem rating_counts_spec_witness :
    ((5 : ℚ), 1) ∈ ratingCounts exRatings ∧
    ((ratingCounts exRatings).map Prod.snd).sum = nRatings exRatings :=
  ⟨((rating_counts_spec exRatings).2.1 5 1).mpr ⟨by decide, by decide⟩,
   (rating_counts_spec exRatings).2.2⟩

/-! Section: C8: bias shares are percentages -/

theorem share_bounds {k n : ℕ} (hk : k ≤ n) (hn : 0 < n) :
    0 ≤ ((k : ℚ) / n) * 100 ∧ ((k : ℚ) / n) * 100 ≤ 100 := by
  have hn' : (0 : ℚ) < n := by exact_mod_cast hn
  constructor
  · positivity
  · have h1 : ((k : ℚ) / n) ≤ 1 := (div_le_one hn').mpr (by exact_mod_cast hk)
    calc ((k : ℚ) / n) * 100 ≤ 1 * 100 :=
          mul_le_mul_of_nonneg_right h1 (by norm_num)
      _ = 100 := by norm_num

/-- C8. For every non-empty ratings table, the reported power-user share
(fraction of rating rows belonging to the 20 users with the highest rating
count) and popular-item share (fraction of rating rows belonging to the 50
items with the highest rating count) are percentages in [0, 100]. -/
theorem bias_shares_in_range (ratings : List Rating) (movies : List Movie)
    (h : ratings ≠ []) :
    0 ≤ powerUserShare ratings ∧ powerUserShare ratings ≤ 100 ∧
    0 ≤ popularMovieShare ratings movies ∧ popularMovieShare ratings movies ≤ 100 := by
  have hn : 0 < nRatings ratings := List.length_pos.mpr h
  have hu := share_bounds
    (List.length_filter_le (fun x => (powerUsers ratings).contains x.userId) ratings) hn
  have hm := share_bounds
    (List.length_filter_le
      (fun x => (popularMovieIds ratings movies).contains x.movieId) ratings) hn
  exact ⟨hu.1, hu.2, hm.1, hm.2⟩

/-- Witness for `bias_shares_in_range` at the spec's worked scenario. -/
theorem bias_shares_in_range_witness :
    0 ≤ powerUserShare exRatings ∧ powerUserShare exRatings ≤ 100 ∧
    0 ≤ popularMovieShare exRatings exMovies ∧
    popularMovieShare exRatings exMovies ≤ 100 :=
  bias_shares_in_range exRatings exMovies (by decide)

/-! Section: C7: the genre tally and top-10 selection -/

theorem mem_foldl_firstOccur (l : List String) (acc : List String) (g : String) :
    (g ∈ l.foldl (fun acc x => if x ∈ acc then acc else acc ++ [x]) acc) ↔
      g ∈ acc ∨ g ∈ l := by
  induction l generalizing acc with
  | nil => simp
  | cons x xs ih =>
    simp only [List.foldl_cons]
    by_cases hx : x ∈ acc
    · rw [if_pos hx, ih]
      constructor
      · rintro (h | h)
        · exact Or.inl h
        · exact Or.inr (List.mem_cons_of_mem x h)
      · rintro (h | h)
        · exact Or.inl h
        · rcases List.mem_cons.mp h with rfl | h
          · exact Or.inl hx
          · exact Or.inr h
    · rw [if_neg hx, ih]
      simp only [List.mem_append, List.mem_singleton, List.mem_cons]
      tauto

theorem mem_distinctGenres {movies : List Movie} {g : String} :
    g ∈ distinctGenres movies ↔ g ∈ allGenres movies := by
  rw [distinctGenres, mem_foldl_firstOccur]
  simp

theorem count_allGenres (movies : List Movie) (g : String) :
    genreTally movies g =
      (movies.map (fun m => (splitGenres m).count g)).sum := by
  induction movies with
  | nil => rfl
  | cons m ms ih =>
    show (splitGenres m ++ allGenres ms).count g = _
    rw [List.count_append]
    simp only [List.map_cons, List.sum_cons]
    exact congrArg _ ih

theorem sorted_sortedGenres (movies : List Movie) :
    (sortedGenres movies).Sorted
      (fun a b => genreTally movies b ≤ genreTally movies a) := by
  haveI : IsTotal String (fun a b => genreTally movies b ≤ genreTally movies a) :=
    ⟨fun a b => le_total _ _⟩
  haveI : IsTrans String (fun a b => genreTally movies b ≤ genreTally movies a) :=
    ⟨fun a b c hab hbc => le_trans hbc hab⟩
  exact List.sorted_insertionSort _ _

/-- C7. The genre analyzer tallies every label once per occurrence across all
items' split category strings (an item with K categories contributes to K
tallies); the top-10 selection is the 10-prefix of the stable descending
sort of the labels by count: a permutation of the distinct labels, sorted by
descending count, every excluded label's count being no larger than any
selected label's, with ties kept in first-encountered order. -/
theorem genre_top10_spec (movies : List Movie) :
    (∀ g : String, genreTally movies g =
      (movies.map (fun m => (splitGenres m).count g)).sum) ∧
    (∀ g : String, (g ∈ distinctGenres movies ↔ g ∈ allGenres movies)) ∧
    topGenres movies = (sortedGenres movies).take 10 ∧
    (sortedGenres movies).Perm (distinctGenres movies) ∧
    (sortedGenres movies).Sorted
      (fun a b => genreTally movies b ≤ genreTally movies a) ∧
    (∀ g ∈ topGenres movies, ∀ h ∈ distinctGenres movies, h ∉ topGenres movies →
      genreTally movies h ≤ genreTally movies g) ∧
    (∀ g h : String, genreTally movies g = genreTally movies h →
      [g, h].Sublist (distinctGenres movies) → [g, h].Sublist (sortedGenres movies)) := by
  refine ⟨count_allGenres movies, fun g => mem_distinctGenres, rfl,
    List.perm_insertionSort _ _, sorted_sortedGenres movies, ?_, ?_⟩
  · intro g hg h hh hnot
    rw [topGenres] at hg hnot
    have hh' : h ∈ sortedGenres movies := by
      rw [sortedGenres]
      exact (List.mem_insertionSort _).mpr hh
    have hsplit : h ∈ (sortedGenres movies).take 10 ∨
        h ∈ (sortedGenres movies).drop 10 := by
      rw [← List.mem_append, List.take_append_drop]
      exact hh'
    rcases hsplit with htake | hdrop
    · exact absurd htake hnot
    · exact (sorted_sortedGenres movies).rel_of_mem_take_of_mem_drop hg hdrop
  · intro g h heq hsub
    exact List.sublist_insertionSort (List.pairwise_pair.mpr (le_of_eq heq.symm)) hsub

/-- A dataset with 11 distinct genre labels and tied counts, exercising the
top-10 boundary and the stability tie-break. -/
def exMoviesManyGenres : List Movie :=
  [⟨1, "T1", "A|B|C|D|E|F|G|H|I|J|K", none⟩, ⟨2, "T2", "A", none⟩]

/-- Witness for `genre_top10_spec`: the tally equation at the spec scenario;
the boundary property for the excluded 11th label; and the tie-break
stability for two tied labels. -/
theorem genre_top10_spec_witness :
    genreTally exMovies "Action" =
      (exMovies.map (fun m => (splitGenres m).count "Action")).sum ∧
    genreTally exMoviesManyGenres "K" ≤ genreTally exMoviesManyGenres "A" ∧
    ["B", "C"].Sublist (sortedGenres exMoviesManyGenres) :=
  ⟨(genre_top10_spec exMovies).1 "Action",
   (genre_top10_spec exMoviesManyGenres).2.2.2.2.2.1 "A" (by decide) "K"
     (by decide) (by decide),
   (genre_top10_spec exMoviesManyGenres).2.2.2.2.2.2 "B" "C" (by decide) (by decide)⟩

end EDA
